import Mathlib

/-!
Verification of `src/data/crypto/get_daily_price_crypto.py` from the
AI-Trader repository.

The script is shallowly embedded: parsed JSON values become the inductive
`Json` (Python `None` is `Json.null`; parsed JSON objects are association
lists in insertion order, with unique keys in any value actually produced
by a JSON parser); Python exceptions become `Option`/explicit failure
results; the process environment, the HTTP response and the success of the
file write become an explicit `Env` record; `print` calls become a log of
`LogMsg` values; the value returned by a function together with the files
it wrote become a `FetchResult`.
-/

namespace AITrader

/-- Parsed JSON values, as far as this script observes them.
`null` is Python `None`; `obj` is a Python dict with string keys, kept in
insertion order. -/
inductive Json where
  | null : Json
  | str  : String → Json
  | obj  : List (String × Json) → Json
deriving Repr

/-- Python `d[k]`-style first-match lookup, returning `Json.null`
(Python `None`) when the key is absent: this is `d.get(k)`. -/
def pyGet (kvs : List (String × Json)) (k : String) : Json :=
  match kvs.lookup k with
  | some v => v
  | none   => Json.null

/-- Python `d.get(k, default)`: the stored value (even if `null`) when the
key is present, the default only when the key is absent. -/
def pyGetD (kvs : List (String × Json)) (k : String) (d : Json) : Json :=
  match kvs.lookup k with
  | some v => v
  | none   => d

/-- View a `Json` value as a dict; `none` models the `AttributeError`
raised by calling `.get`/`.items()` on a non-dict. -/
def Json.asObj? : Json → Option (List (String × Json))
  | .obj kvs => some kvs
  | _ => none

/-- `x is not None` on the result of `d.get(k)`. -/
def isNotNone : Json → Bool
  | .null => false
  | _ => true

/-- Python truthiness of a parsed JSON value (`if result:`): `None`, empty
strings and empty dicts are falsy. -/
def pyTruthy : Json → Bool
  | .null => false
  | .str s => !s.isEmpty
  | .obj kvs => !kvs.isEmpty

/-- Truthiness of the value returned by the fetcher (`None` is falsy). -/
def pyTruthyOpt : Option Json → Bool
  | none => false
  | some j => pyTruthy j

/-- `not APIKEY` for `APIKEY = os.getenv(...)`: unset (`None`) or the
empty string. -/
def pyFalsyStr : Option String → Bool
  | none => true
  | some s => s.isEmpty

/-- The standard 5-field OHLCV record built for one date from the raw
per-date entry `vs`, each field defaulting to the string `"0"`. -/
def ohlcvRecord (vs : List (String × Json)) : List (String × Json) :=
  [("1. open",   pyGetD vs "1. open"   (Json.str "0")),
   ("2. high",   pyGetD vs "2. high"   (Json.str "0")),
   ("3. low",    pyGetD vs "3. low"    (Json.str "0")),
   ("4. close",  pyGetD vs "4. close"  (Json.str "0")),
   ("5. volume", pyGetD vs "5. volume" (Json.str "0"))]

/-- The body of the `for date, values in time_series.items()` loop of
`convert_crypto_to_standard_format`: one output OHLCV record; `none`
models the exception raised when `values` is not a dict. -/
def convertEntry (values : Json) : Option Json :=
  match values.asObj? with
  | none => none
  | some vs => some (Json.obj (ohlcvRecord vs))

/-- The whole conversion loop over the raw time series, in order; the
first raising entry aborts the call. -/
def convertSeries : List (String × Json) → Option (List (String × Json))
  | [] => some []
  | (date, values) :: rest =>
    match convertEntry values with
    | none => none
    | some e =>
      match convertSeries rest with
      | none => none
      | some es => some ((date, e) :: es)

/-- The `Meta Data` mapping of the standard record: extracted from the raw
metadata with the named fallbacks of the source (`1. Information` with a
fixed description default, `6. Last Refreshed` with the `None` fallback of
`dict.get`, `7. Time Zone` defaulting to `"UTC"`), the given symbol, and
the constant output size `"Compact"`. -/
def metadataRecord (metadata : List (String × Json)) (symbol : String) :
    List (String × Json) :=
  [("1. Information",
     pyGetD metadata "1. Information"
       (Json.str "Daily Prices (open, high, low, close) and Volumes")),
   ("2. Symbol", Json.str symbol),
   ("3. Last Refreshed", pyGet metadata "6. Last Refreshed"),
   ("4. Output Size", Json.str "Compact"),
   ("5. Time Zone", pyGetD metadata "7. Time Zone" (Json.str "UTC"))]

/-- `convert_crypto_to_standard_format(data, symbol)`: pure reshaping of
the raw payload; `none` models any exception the Python body raises (a
non-dict `data`, `Meta Data` or `Time Series (Digital Currency Daily)`
value, or a non-dict per-date entry). -/
def convert_crypto_to_standard_format (data : Json) (symbol : String) : Option Json :=
  match data.asObj? with
  | none => none
  | some d =>
    match (pyGetD d "Meta Data" (Json.obj [])).asObj? with
    | none => none
    | some metadata =>
      match (pyGetD d "Time Series (Digital Currency Daily)" (Json.obj [])).asObj? with
      | none => none
      | some time_series =>
        match convertSeries time_series with
        | none => none
        | some entries =>
          some (Json.obj [
            ("Meta Data", Json.obj (metadataRecord metadata symbol)),
            ("Time Series (Daily)", Json.obj entries)])

/-- Outcome of `requests.get(url)` followed by `r.json()`:
a transport-level exception, a JSON parse failure, or a parsed body. -/
inductive HttpOutcome where
  | netErr
  | parseErr
  | body (j : Json)

/-- The world one call of `get_crypto_daily_price` runs in: the API key
from the environment, the HTTP outcome, the directory of the script (for
the output path) and whether the directory-create/open/write step
succeeds. -/
structure Env where
  apiKey : Option String
  http : HttpOutcome
  scriptDir : String
  writeOk : Bool

/-- One `print` call of the script, with the data it interpolates. -/
inductive LogMsg where
  | missingApiKey
  | fetching (symbol market : String)
  | apiError (symbol : String) (note : Json)
  | noTimeSeries (symbol : String) (response : Json)
  | savedOk (symbol filename : String)
  | networkError (symbol : String)
  | jsonError (symbol : String)
  | unexpectedError (symbol : String)

/-- Observable result of one `get_crypto_daily_price` call: the returned
value (`none` is the Python `None` sentinel), the files written as
(path, serialized record), and the diagnostics printed. -/
structure FetchResult where
  ret : Option Json
  written : List (String × Json)
  logs : List LogMsg

/-- Output path `<script dir>/coin/daily_prices_<symbol>.json`. -/
def coinFilename (scriptDir symbol : String) : String :=
  scriptDir ++ "/coin/daily_prices_" ++ symbol ++ ".json"

/-- `get_crypto_daily_price(symbol, market)` run in world `env`, tracing
the source line by line: missing-key bail-out, fetch, the `Note` /
`Information` check (`data.get(k) is not None`), the
`"Time Series (Digital Currency Daily)" not in data` check, the
conversion, the file write, and the `except` clauses that turn every
exception into the `None` sentinel. -/
def get_crypto_daily_price (env : Env) (symbol : String) (market : String) : FetchResult :=
  if pyFalsyStr env.apiKey then
    ⟨none, [], [LogMsg.missingApiKey]⟩
  else
    match env.http with
    | .netErr =>
      ⟨none, [], [LogMsg.fetching symbol market, LogMsg.networkError symbol]⟩
    | .parseErr =>
      ⟨none, [], [LogMsg.fetching symbol market, LogMsg.jsonError symbol]⟩
    | .body data =>
      match data.asObj? with
      | none =>
        ⟨none, [], [LogMsg.fetching symbol market, LogMsg.unexpectedError symbol]⟩
      | some d =>
        if isNotNone (pyGet d "Note") || isNotNone (pyGet d "Information") then
          ⟨none, [],
            [LogMsg.fetching symbol market,
             LogMsg.apiError symbol
               (pyGetD d "Note" (pyGetD d "Information" (Json.str "Unknown error")))]⟩
        else if (d.lookup "Time Series (Digital Currency Daily)").isSome = false then
          ⟨none, [],
            [LogMsg.fetching symbol market, LogMsg.noTimeSeries symbol (Json.obj d)]⟩
        else
          match convert_crypto_to_standard_format (Json.obj d) symbol with
          | none =>
            ⟨none, [], [LogMsg.fetching symbol market, LogMsg.unexpectedError symbol]⟩
          | some standard_data =>
            if env.writeOk then
              ⟨some standard_data,
               [(coinFilename env.scriptDir symbol, standard_data)],
               [LogMsg.fetching symbol market,
                LogMsg.savedOk symbol (coinFilename env.scriptDir symbol)]⟩
            else
              ⟨none, [],
               [LogMsg.fetching symbol market, LogMsg.unexpectedError symbol]⟩

/-- The default of the `market` parameter of `get_crypto_daily_price`. -/
def defaultMarket : String := "USD"

/-- `get_daily_price(symbol)`: the stock-interface alias, which calls
`get_crypto_daily_price(symbol, market="USD")`. -/
def get_daily_price (env : Env) (symbol : String) : FetchResult :=
  get_crypto_daily_price env symbol "USD"

/-- The module-level default symbol list `crypto_symbols_usdt`. -/
def crypto_symbols_usdt : List String :=
  ["BTC", "ETH", "XRP", "SOL", "ADA", "SUI", "LINK", "AVAX", "LTC", "DOT"]

/-- Counters and sleep positions accumulated by one batch run:
`sleptAfter` records the 1-based indices `i` after which
`time.sleep(delay_seconds)` ran. -/
structure BatchResult where
  successful : Nat
  failed : Nat
  sleptAfter : List Nat

/-- The `for i, symbol in enumerate(symbols_list, 1)` loop of
`get_all_crypto_prices`, with `envOf` giving the world each per-symbol
call runs in: fetch with the default market, bump one counter by
truthiness of the result, sleep when `i < total`. -/
def batchLoop (envOf : String → Env) (total : Nat) :
    List String → Nat → Nat → Nat → List Nat → BatchResult
  | [], _, successful, failed, slept => ⟨successful, failed, slept⟩
  | symbol :: rest, i, successful, failed, slept =>
    let result := (get_crypto_daily_price (envOf symbol) symbol "USD").ret
    let successful' := if pyTruthyOpt result then successful + 1 else successful
    let failed' := if pyTruthyOpt result then failed else failed + 1
    let slept' := if i < total then slept ++ [i] else slept
    batchLoop envOf total rest (i + 1) successful' failed' slept'

/-- `get_all_crypto_prices(symbols_list, delay_seconds)`: defaults a
`None` symbol list to `crypto_symbols_usdt` and runs the loop from
index 1 with zeroed counters.  `delay_seconds` only sets how long each
sleep lasts, which the observable counters do not depend on. -/
def get_all_crypto_prices (envOf : String → Env)
    (symbols_list : Option (List String)) (delay_seconds : Nat) : BatchResult :=
  let symbols := symbols_list.getD crypto_symbols_usdt
  let _ := delay_seconds
  batchLoop envOf symbols.length symbols 1 0 0 []

/-! ### Helper lemmas about the reshaper -/

theorem pyGetD_eq_default {kvs : List (String × Json)} {k : String} {d : Json}
    (h : kvs.lookup k = none) : pyGetD kvs k d = d := by
  simp [pyGetD, h]

theorem pyGetD_eq_val {kvs : List (String × Json)} {k : String} {d v : Json}
    (h : kvs.lookup k = some v) : pyGetD kvs k d = v := by
  simp [pyGetD, h]

theorem asObj_eq_some {j : Json} {kvs : List (String × Json)}
    (h : j.asObj? = some kvs) : j = Json.obj kvs := by
  cases j with
  | obj l => simp only [Json.asObj?, Option.some.injEq] at h; rw [h]
  | null => simp [Json.asObj?] at h
  | str s => simp [Json.asObj?] at h

theorem convertSeries_map_fst : ∀ {ts es : List (String × Json)},
    convertSeries ts = some es → es.map Prod.fst = ts.map Prod.fst := by
  intro ts
  induction ts with
  | nil =>
    intro es h
    simp only [convertSeries, Option.some.injEq] at h
    subst h
    rfl
  | cons p rest ih =>
    intro es h
    obtain ⟨date, values⟩ := p
    simp only [convertSeries] at h
    split at h
    · simp at h
    · split at h
      · simp at h
      · rename_i e _ es' hr
        simp only [Option.some.injEq] at h
        subst h
        simp [ih hr]

theorem ohlcvRecord_lookup {vs : List (String × Json)} {fld : String}
    (h : fld ∈ (["1. open", "2. high", "3. low", "4. close", "5. volume"] : List String)) :
    (ohlcvRecord vs).lookup fld = some (pyGetD vs fld (Json.str "0")) := by
  simp only [List.mem_cons, List.not_mem_nil, or_false] at h
  rcases h with rfl | rfl | rfl | rfl | rfl <;> rfl

theorem convertSeries_lookup : ∀ {ts es vs : List (String × Json)} {date : String},
    (ts.map Prod.fst).Nodup →
    (date, Json.obj vs) ∈ ts →
    convertSeries ts = some es →
    es.lookup date = some (Json.obj (ohlcvRecord vs)) := by
  intro ts
  induction ts with
  | nil =>
    intro es vs date _ hmem _
    simp at hmem
  | cons p rest ih =>
    intro es vs date hnd hmem h
    obtain ⟨d0, v0⟩ := p
    simp only [convertSeries] at h
    split at h
    · simp at h
    · split at h
      · simp at h
      · rename_i j e hs es' hr
        simp only [Option.some.injEq] at h
        subst h
        rcases List.mem_cons.mp hmem with hhead | htail
        · cases hhead
          simp only [convertEntry, Json.asObj?, Option.some.injEq] at e
          subst e
          simp [List.lookup]
        · have hdate : date ≠ d0 := by
            intro hEq
            subst hEq
            exact (List.nodup_cons.mp (by simpa using hnd)).1
              (List.mem_map_of_mem Prod.fst htail)
          have hbeq : (date == d0) = false := by
            simpa using hdate
          rw [List.lookup]
          rw [hbeq]
          exact ih (List.nodup_cons.mp (by simpa using hnd)).2 htail hr

theorem convert_obj_shape {data : Json} {symbol : String} {out : Json}
    (h : convert_crypto_to_standard_format data symbol = some out) :
    ∃ metadata entries,
      out = Json.obj [("Meta Data", Json.obj (metadataRecord metadata symbol)),
                      ("Time Series (Daily)", Json.obj entries)] := by
  simp only [convert_crypto_to_standard_format] at h
  split at h
  · simp at h
  · split at h
    · simp at h
    · split at h
      · simp at h
      · split at h
        · simp at h
        · rename_i entries _
          simp only [Option.some.injEq] at h
          exact ⟨_, entries, h.symm⟩

theorem convert_result_truthy {data : Json} {symbol : String} {out : Json}
    (h : convert_crypto_to_standard_format data symbol = some out) :
    pyTruthy out = true := by
  obtain ⟨metadata, entries, hout⟩ := convert_obj_shape h
  subst hout
  rfl

/-! ### Claim theorems about the reshaper -/

/-- Claim C1: for every raw payload whose `Time Series (Digital Currency
Daily)` value is a mapping `ts`, a successful run of
`convert_crypto_to_standard_format` produces a `Time Series (Daily)`
mapping with exactly the same date keys as `ts` (indeed in the same
order): no dates dropped, no dates invented. -/
theorem convert_preserves_date_keys
    (d ts : List (String × Json)) (symbol : String) (out : Json)
    (hts : pyGetD d "Time Series (Digital Currency Daily)" (Json.obj []) = Json.obj ts)
    (hconv : convert_crypto_to_standard_format (Json.obj d) symbol = some out) :
    ∃ ol es, out = Json.obj ol ∧
      ol.lookup "Time Series (Daily)" = some (Json.obj es) ∧
      es.map Prod.fst = ts.map Prod.fst ∧
      ∀ date, (date ∈ es.map Prod.fst ↔ date ∈ ts.map Prod.fst) := by
  simp only [convert_crypto_to_standard_format, Json.asObj?] at hconv
  rw [hts] at hconv
  simp only [Json.asObj?] at hconv
  split at hconv
  · simp at hconv
  · split at hconv
    · simp at hconv
    · rename_i entries hcs
      simp only [Option.some.injEq] at hconv
      subst hconv
      exact ⟨_, entries, rfl, rfl, convertSeries_map_fst hcs, fun date => by
        rw [convertSeries_map_fst hcs]⟩

/-- Claim C3: for every raw time-series entry `(date, vs)` of a raw
payload whose time series is a mapping with no duplicate dates, and each
of the five OHLCV sub-fields, the output record of a successful
`convert_crypto_to_standard_format` run holds the raw value when the
sub-field is present and the string `"0"` when it is absent. -/
theorem convert_ohlcv_defaults
    (d ts vs : List (String × Json)) (symbol date : String) (out : Json)
    (hts : pyGetD d "Time Series (Digital Currency Daily)" (Json.obj []) = Json.obj ts)
    (hnd : (ts.map Prod.fst).Nodup)
    (hmem : (date, Json.obj vs) ∈ ts)
    (hconv : convert_crypto_to_standard_format (Json.obj d) symbol = some out) :
    ∃ ol es rec, out = Json.obj ol ∧
      ol.lookup "Time Series (Daily)" = some (Json.obj es) ∧
      es.lookup date = some (Json.obj rec) ∧
      ∀ fld ∈ (["1. open", "2. high", "3. low", "4. close", "5. volume"] : List String),
        (vs.lookup fld = none → rec.lookup fld = some (Json.str "0")) ∧
        (∀ v, vs.lookup fld = some v → rec.lookup fld = some v) := by
  simp only [convert_crypto_to_standard_format, Json.asObj?] at hconv
  rw [hts] at hconv
  simp only [Json.asObj?] at hconv
  split at hconv
  · simp at hconv
  · split at hconv
    · simp at hconv
    · rename_i entries hcs
      simp only [Option.some.injEq] at hconv
      subst hconv
      refine ⟨_, entries, ohlcvRecord vs, rfl, rfl,
        convertSeries_lookup hnd hmem hcs, ?_⟩
      intro fld hfld
      constructor
      · intro hnone
        rw [ohlcvRecord_lookup hfld, pyGetD_eq_default hnone]
      · intro v hv
        rw [ohlcvRecord_lookup hfld, pyGetD_eq_val hv]

/-- Claim C8: for every raw payload whose `Meta Data` value is the mapping
`meta`, the `Meta Data` of a successful `convert_crypto_to_standard_format`
run maps `2. Symbol` to the given symbol, `4. Output Size` to the constant
`"Compact"`, `1. Information` to the raw `1. Information` with a fixed
description as default, `3. Last Refreshed` to the raw `6. Last Refreshed`
(with the `None` fallback of `dict.get`), and `5. Time Zone` to the raw
`7. Time Zone` defaulting to `"UTC"`. -/
theorem convert_metadata_fields
    (d meta : List (String × Json)) (symbol : String) (out : Json)
    (hmeta : pyGetD d "Meta Data" (Json.obj []) = Json.obj meta)
    (hconv : convert_crypto_to_standard_format (Json.obj d) symbol = some out) :
    ∃ md rest, out = Json.obj (("Meta Data", Json.obj md) :: rest) ∧
      md.lookup "1. Information" =
        some (pyGetD meta "1. Information"
          (Json.str "Daily Prices (open, high, low, close) and Volumes")) ∧
      md.lookup "2. Symbol" = some (Json.str symbol) ∧
      md.lookup "3. Last Refreshed" = some (pyGet meta "6. Last Refreshed") ∧
      md.lookup "4. Output Size" = some (Json.str "Compact") ∧
      md.lookup "5. Time Zone" = some (pyGetD meta "7. Time Zone" (Json.str "UTC")) := by
  simp only [convert_crypto_to_standard_format, Json.asObj?] at hconv
  rw [hmeta] at hconv
  simp only [Json.asObj?] at hconv
  split at hconv
  · simp at hconv
  · split at hconv
    · simp at hconv
    · rename_i entries hcs
      simp only [Option.some.injEq] at hconv
      subst hconv
      exact ⟨metadataRecord meta symbol, _, rfl, rfl, rfl, rfl, rfl, rfl⟩

/-- Claim C6: the reshaper is deterministic and free of hidden state: its
result is a function of its two arguments alone, so two invocations on
equal inputs yield structurally equal outputs. -/
theorem convert_deterministic (data data' : Json) (symbol symbol' : String)
    (hdata : data = data') (hsymbol : symbol = symbol') :
    convert_crypto_to_standard_format data symbol =
      convert_crypto_to_standard_format data' symbol' := by
  rw [hdata, hsymbol]

/-- Claim C9: `get_daily_price` is extensionally the same call as
`get_crypto_daily_price` at the default market, and that default is
`"USD"`. -/
theorem get_daily_price_is_default_alias (env : Env) (symbol : String) :
    get_daily_price env symbol = get_crypto_daily_price env symbol defaultMarket ∧
    defaultMarket = "USD" :=
  ⟨rfl, rfl⟩

/-! ### Claim theorems about the fetcher -/

/-- Claim C4: when `ALPHAADVANTAGE_API_KEY` is absent or falsy,
`get_crypto_daily_price` prints the missing-key diagnostic and returns the
`None` sentinel with no file written; the result is the same for every
HTTP outcome, so no network request is consulted. -/
theorem missing_api_key_returns_sentinel (env : Env) (symbol market : String)
    (hkey : pyFalsyStr env.apiKey = true) :
    get_crypto_daily_price env symbol market =
      ⟨none, [], [LogMsg.missingApiKey]⟩ ∧
    ∀ h : HttpOutcome,
      get_crypto_daily_price ⟨env.apiKey, h, env.scriptDir, env.writeOk⟩ symbol market =
        ⟨none, [], [LogMsg.missingApiKey]⟩ := by
  constructor
  · simp [get_crypto_daily_price, hkey]
  · intro h
    simp [get_crypto_daily_price, hkey]

/-- Claim C2, counterexample: a parsed response that contains the field
`Note` with the value `null` is not treated as a failure; with a valid
time series alongside it the call returns a record and writes a file. -/
theorem note_null_field_not_failure :
    ((get_crypto_daily_price
        ⟨some "k",
         HttpOutcome.body (Json.obj
           [("Note", Json.null),
            ("Time Series (Digital Currency Daily)", Json.obj [])]),
         "/repo", true⟩ "BTC" "USD").ret).isSome = true ∧
    ((get_crypto_daily_price
        ⟨some "k",
         HttpOutcome.body (Json.obj
           [("Note", Json.null),
            ("Time Series (Digital Currency Daily)", Json.obj [])]),
         "/repo", true⟩ "BTC" "USD").written).length = 1 := by
  constructor <;> rfl

/-- Claim C2, amended: for every parsed response object that holds a
`Note` or `Information` field with a non-null value,
`get_crypto_daily_price` returns the `None` sentinel and writes no
file. -/
theorem notice_value_returns_sentinel (env : Env) (symbol market : String)
    (d : List (String × Json))
    (hbody : env.http = HttpOutcome.body (Json.obj d))
    (hnotice : isNotNone (pyGet d "Note") = true ∨
      isNotNone (pyGet d "Information") = true) :
    (get_crypto_daily_price env symbol market).ret = none ∧
    (get_crypto_daily_price env symbol market).written = [] := by
  have hcond : (isNotNone (pyGet d "Note") || isNotNone (pyGet d "Information")) = true := by
    rcases hnotice with h | h <;> simp [h]
  by_cases hkey : pyFalsyStr env.apiKey = true
  · simp [get_crypto_daily_price, hkey]
  · simp [get_crypto_daily_price, hkey, hbody, Json.asObj?, hcond]

/-- Claim C5: `get_crypto_daily_price` is a total function of its world:
every call either returns the `None` sentinel (as it does on each failure
path: falsy key, transport error, parse error, non-object body, provider
notice, missing payload, failing reshape, failing write) or is a full
success whose checks all passed and whose return value is the reshaped
record. -/
theorem fetch_sentinel_on_every_failure (env : Env) (symbol market : String) :
    (get_crypto_daily_price env symbol market).ret = none ∨
    ∃ d standard_data,
      pyFalsyStr env.apiKey = false ∧
      env.http = HttpOutcome.body (Json.obj d) ∧
      isNotNone (pyGet d "Note") = false ∧
      isNotNone (pyGet d "Information") = false ∧
      (d.lookup "Time Series (Digital Currency Daily)").isSome = true ∧
      convert_crypto_to_standard_format (Json.obj d) symbol = some standard_data ∧
      env.writeOk = true ∧
      (get_crypto_daily_price env symbol market).ret = some standard_data := by
  unfold get_crypto_daily_price
  split
  · exact Or.inl rfl
  · rename_i hkey
    split
    · exact Or.inl rfl
    · exact Or.inl rfl
    · rename_i data henv
      split
      · exact Or.inl rfl
      · rename_i d hd
        split
        · exact Or.inl rfl
        · rename_i hnotice
          split
          · exact Or.inl rfl
          · rename_i hts
            split
            · exact Or.inl rfl
            · rename_i std hstd
              split
              · rename_i hw
                simp only [Bool.or_eq_true, not_or, Bool.not_eq_true] at hnotice
                refine Or.inr ⟨d, std, ?_, ?_, hnotice.1, hnotice.2, ?_, hstd, hw, rfl⟩
                · simpa using hkey
                · rw [henv, asObj_eq_some hd]
                · simpa using hts
              · exact Or.inl rfl

/-- Claim C10, counterexample: a parsed response whose
`Time Series (Digital Currency Daily)` is the empty mapping, with no
notice field, is not always classified as a success — when `Meta Data`
holds a non-object the reshape raises and the call returns the sentinel
with no file written. -/
theorem empty_series_with_nondict_metadata_fails :
    (get_crypto_daily_price
        ⟨some "k",
         HttpOutcome.body (Json.obj
           [("Time Series (Digital Currency Daily)", Json.obj []),
            ("Meta Data", Json.str "oops")]),
         "/repo", true⟩ "BTC" "USD").ret = none ∧
    (get_crypto_daily_price
        ⟨some "k",
         HttpOutcome.body (Json.obj
           [("Time Series (Digital Currency Daily)", Json.obj []),
            ("Meta Data", Json.str "oops")]),
         "/repo", true⟩ "BTC" "USD").written = [] :=
  ⟨rfl, rfl⟩

/-- Claim C10, amended: a call whose parsed response maps
`Time Series (Digital Currency Daily)` to the empty mapping, carries no
non-null `Note`/`Information` notice and whose `Meta Data` resolves to a
mapping is classified as a success (given the key is set and the write
succeeds): the call returns a record whose `Time Series (Daily)` is empty
and writes it to the symbol-derived path. -/
theorem empty_series_is_success (env : Env) (symbol market : String)
    (d meta : List (String × Json))
    (hkey : pyFalsyStr env.apiKey = false)
    (hbody : env.http = HttpOutcome.body (Json.obj d))
    (hts : d.lookup "Time Series (Digital Currency Daily)" = some (Json.obj []))
    (hnote : isNotNone (pyGet d "Note") = false)
    (hinfo : isNotNone (pyGet d "Information") = false)
    (hmeta : pyGetD d "Meta Data" (Json.obj []) = Json.obj meta)
    (hw : env.writeOk = true) :
    ∃ standard_data,
      (get_crypto_daily_price env symbol market).ret = some standard_data ∧
      (get_crypto_daily_price env symbol market).written =
        [(coinFilename env.scriptDir symbol, standard_data)] ∧
      ∃ ol, standard_data = Json.obj ol ∧
        ol.lookup "Time Series (Daily)" = some (Json.obj []) := by
  have hconv : convert_crypto_to_standard_format (Json.obj d) symbol =
      some (Json.obj [("Meta Data", Json.obj (metadataRecord meta symbol)),
                      ("Time Series (Daily)", Json.obj [])]) := by
    simp [convert_crypto_to_standard_format, Json.asObj?, hmeta,
      pyGetD_eq_val hts, convertSeries]
  have hrun : get_crypto_daily_price env symbol market =
      ⟨some (Json.obj [("Meta Data", Json.obj (metadataRecord meta symbol)),
                       ("Time Series (Daily)", Json.obj [])]),
       [(coinFilename env.scriptDir symbol,
         Json.obj [("Meta Data", Json.obj (metadataRecord meta symbol)),
                   ("Time Series (Daily)", Json.obj [])])],
       [LogMsg.fetching symbol market,
        LogMsg.savedOk symbol (coinFilename env.scriptDir symbol)]⟩ := by
    simp [get_crypto_daily_price, hkey, hbody, Json.asObj?, hnote, hinfo,
      hts, hconv, hw]
  exact ⟨_, by rw [hrun], by rw [hrun],
    [("Meta Data", Json.obj (metadataRecord meta symbol)),
     ("Time Series (Daily)", Json.obj [])], rfl, rfl⟩

/-! ### Helper lemmas about the batch driver -/

theorem ret_truthy_eq_isSome (env : Env) (symbol market : String) :
    pyTruthyOpt ((get_crypto_daily_price env symbol market).ret) =
      ((get_crypto_daily_price env symbol market).ret).isSome := by
  unfold get_crypto_daily_price
  split
  · rfl
  · split
    · rfl
    · rfl
    · split
      · rfl
      · split
        · rfl
        · split
          · rfl
          · split
            · rfl
            · rename_i std hstd
              split
              · simp [pyTruthyOpt, convert_result_truthy hstd]
              · rfl

theorem range'_one_filter (n : Nat) :
    (List.range' 1 (n + 1)).filter (fun x => x < n + 1) = List.range' 1 n := by
  rw [List.range'_concat, List.filter_append]
  have h1 : (List.range' 1 n).filter (fun x => x < n + 1) = List.range' 1 n := by
    apply List.filter_eq_self.mpr
    intro a ha
    have := (List.mem_range'_1.mp ha).2
    simp only [decide_eq_true_eq]
    omega
  have h2 : ([1 + 1 * n] : List Nat).filter (fun x => x < n + 1) = [] := by
    simp only [List.filter_cons, List.filter_nil, decide_eq_true_eq]
    rw [if_neg (by omega)]
  rw [h1, h2, List.append_nil]

theorem batchLoop_spec (envOf : String → Env) (total : Nat) :
    ∀ (l : List String) (i successful failed : Nat) (slept : List Nat),
      batchLoop envOf total l i successful failed slept =
        ⟨successful +
           l.countP (fun s => pyTruthyOpt ((get_crypto_daily_price (envOf s) s "USD").ret)),
         failed +
           (l.length -
             l.countP (fun s => pyTruthyOpt ((get_crypto_daily_price (envOf s) s "USD").ret))),
         slept ++ (List.range' i l.length).filter (fun x => x < total)⟩ := by
  intro l
  induction l with
  | nil =>
    intro i successful failed slept
    simp [batchLoop]
  | cons sym rest ih =>
    intro i successful failed slept
    have hc := List.countP_le_length
      (fun s => pyTruthyOpt ((get_crypto_daily_price (envOf s) s "USD").ret)) (l := rest)
    simp only [batchLoop]
    rw [ih]
    simp only [BatchResult.mk.injEq]
    refine ⟨?_, ?_, ?_⟩
    · rw [List.countP_cons]
      by_cases hb : pyTruthyOpt ((get_crypto_daily_price (envOf sym) sym "USD").ret) = true
      · simp only [if_pos hb]
        omega
      · simp only [if_neg hb]
        omega
    · rw [List.countP_cons, List.length_cons]
      by_cases hb : pyTruthyOpt ((get_crypto_daily_price (envOf sym) sym "USD").ret) = true
      · simp only [if_pos hb]
        omega
      · simp only [if_neg hb]
        omega
    · rw [List.length_cons,
        show List.range' i (rest.length + 1) = i :: List.range' (i + 1) rest.length from rfl,
        List.filter_cons]
      by_cases hi : i < total
      · simp [hi, List.append_assoc]
      · simp [hi]

/-! ### Claim theorem about the batch driver -/

/-- Claim C7: for every non-empty symbol list the batch driver processes
every symbol: the successful counter equals the number of symbols whose
fetch returned a non-sentinel result, the failed counter is the rest (the
two always sum to the list length), and the inter-call sleep runs exactly
after positions 1 through length-1 — every symbol except the last. -/
theorem batch_counts_and_sleeps (envOf : String → Env) (symbols : List String)
    (delay : Nat) (hne : symbols ≠ []) :
    (get_all_crypto_prices envOf (some symbols) delay).successful =
      symbols.countP (fun s => ((get_crypto_daily_price (envOf s) s "USD").ret).isSome) ∧
    (get_all_crypto_prices envOf (some symbols) delay).failed =
      symbols.length -
        symbols.countP (fun s => ((get_crypto_daily_price (envOf s) s "USD").ret).isSome) ∧
    (get_all_crypto_prices envOf (some symbols) delay).successful +
      (get_all_crypto_prices envOf (some symbols) delay).failed = symbols.length ∧
    (get_all_crypto_prices envOf (some symbols) delay).sleptAfter =
      List.range' 1 (symbols.length - 1) := by
  have hcong : symbols.countP
        (fun s => pyTruthyOpt ((get_crypto_daily_price (envOf s) s "USD").ret)) =
      symbols.countP (fun s => ((get_crypto_daily_price (envOf s) s "USD").ret).isSome) :=
    List.countP_congr (fun s _ => by rw [ret_truthy_eq_isSome])
  have hc := List.countP_le_length
    (fun s => ((get_crypto_daily_price (envOf s) s "USD").ret).isSome) (l := symbols)
  obtain ⟨m, hm⟩ : ∃ m, symbols.length = m + 1 := by
    cases symbols with
    | nil => exact absurd rfl hne
    | cons a l => exact ⟨l.length, rfl⟩
  have hget : get_all_crypto_prices envOf (some symbols) delay =
      batchLoop envOf symbols.length symbols 1 0 0 [] := rfl
  rw [hget, batchLoop_spec envOf symbols.length symbols 1 0 0 []]
  refine ⟨by simpa using hcong, by simp [hcong], by simp [hcong]; omega, ?_⟩
  simp only [List.nil_append]
  rw [hm, range'_one_filter]
  simp

/-! ### Witnesses: each hypothesis-bearing claim theorem applied at a
concrete input -/

theorem convert_preserves_date_keys_witness :
    ∃ ol es,
      Json.obj [("Meta Data", Json.obj (metadataRecord [] "BTC")),
                ("Time Series (Daily)",
                 Json.obj [("2024-01-01",
                   Json.obj (ohlcvRecord [("4. close", Json.str "42")]))])] =
        Json.obj ol ∧
      ol.lookup "Time Series (Daily)" = some (Json.obj es) ∧
      es.map Prod.fst =
        ([("2024-01-01", Json.obj [("4. close", Json.str "42")])].map Prod.fst) ∧
      ∀ date, (date ∈ es.map Prod.fst ↔
        date ∈ [("2024-01-01", Json.obj [("4. close", Json.str "42")])].map Prod.fst) :=
  convert_preserves_date_keys
    [("Time Series (Digital Currency Daily)",
      Json.obj [("2024-01-01", Json.obj [("4. close", Json.str "42")])])]
    [("2024-01-01", Json.obj [("4. close", Json.str "42")])]
    "BTC" _ rfl rfl

theorem convert_ohlcv_defaults_witness :
    ∃ ol es rec,
      Json.obj [("Meta Data", Json.obj (metadataRecord [] "BTC")),
                ("Time Series (Daily)",
                 Json.obj [("2024-01-01",
                   Json.obj (ohlcvRecord [("4. close", Json.str "42")]))])] =
        Json.obj ol ∧
      ol.lookup "Time Series (Daily)" = some (Json.obj es) ∧
      es.lookup "2024-01-01" = some (Json.obj rec) ∧
      ∀ fld ∈ (["1. open", "2. high", "3. low", "4. close", "5. volume"] : List String),
        (([("4. close", Json.str "42")] : List (String × Json)).lookup fld = none →
          rec.lookup fld = some (Json.str "0")) ∧
        (∀ v, ([("4. close", Json.str "42")] : List (String × Json)).lookup fld = some v →
          rec.lookup fld = some v) :=
  convert_ohlcv_defaults
    [("Time Series (Digital Currency Daily)",
      Json.obj [("2024-01-01", Json.obj [("4. close", Json.str "42")])])]
    [("2024-01-01", Json.obj [("4. close", Json.str "42")])]
    [("4. close", Json.str "42")]
    "BTC" "2024-01-01" _ rfl (by simp) (by simp) rfl

theorem convert_metadata_fields_witness :
    ∃ md rest,
      Json.obj [("Meta Data",
                 Json.obj (metadataRecord
                   [("6. Last Refreshed", Json.str "2024-01-02 00:00:00"),
                    ("7. Time Zone", Json.str "UTC")] "ETH")),
                ("Time Series (Daily)", Json.obj [])] =
        Json.obj (("Meta Data", Json.obj md) :: rest) ∧
      md.lookup "1. Information" =
        some (pyGetD [("6. Last Refreshed", Json.str "2024-01-02 00:00:00"),
                      ("7. Time Zone", Json.str "UTC")] "1. Information"
          (Json.str "Daily Prices (open, high, low, close) and Volumes")) ∧
      md.lookup "2. Symbol" = some (Json.str "ETH") ∧
      md.lookup "3. Last Refreshed" =
        some (pyGet [("6. Last Refreshed", Json.str "2024-01-02 00:00:00"),
                     ("7. Time Zone", Json.str "UTC")] "6. Last Refreshed") ∧
      md.lookup "4. Output Size" = some (Json.str "Compact") ∧
      md.lookup "5. Time Zone" =
        some (pyGetD [("6. Last Refreshed", Json.str "2024-01-02 00:00:00"),
                      ("7. Time Zone", Json.str "UTC")] "7. Time Zone" (Json.str "UTC")) :=
  convert_metadata_fields
    [("Meta Data", Json.obj [("6. Last Refreshed", Json.str "2024-01-02 00:00:00"),
                             ("7. Time Zone", Json.str "UTC")]),
     ("Time Series (Digital Currency Daily)", Json.obj [])]
    [("6. Last Refreshed", Json.str "2024-01-02 00:00:00"),
     ("7. Time Zone", Json.str "UTC")]
    "ETH" _ rfl rfl

theorem convert_deterministic_witness :
    convert_crypto_to_standard_format (Json.obj []) "BTC" =
      convert_crypto_to_standard_format (Json.obj []) "BTC" :=
  convert_deterministic (Json.obj []) (Json.obj []) "BTC" "BTC" rfl rfl

theorem missing_api_key_returns_sentinel_witness :
    get_crypto_daily_price ⟨none, HttpOutcome.netErr, "/repo", true⟩ "BTC" "USD" =
      ⟨none, [], [LogMsg.missingApiKey]⟩ ∧
    ∀ h : HttpOutcome,
      get_crypto_daily_price ⟨none, h, "/repo", true⟩ "BTC" "USD" =
        ⟨none, [], [LogMsg.missingApiKey]⟩ :=
  missing_api_key_returns_sentinel ⟨none, HttpOutcome.netErr, "/repo", true⟩
    "BTC" "USD" rfl

theorem notice_value_returns_sentinel_witness :
    (get_crypto_daily_price
        ⟨some "k", HttpOutcome.body (Json.obj [("Note", Json.str "rate limited")]),
         "/repo", true⟩ "BTC" "USD").ret = none ∧
    (get_crypto_daily_price
        ⟨some "k", HttpOutcome.body (Json.obj [("Note", Json.str "rate limited")]),
         "/repo", true⟩ "BTC" "USD").written = [] :=
  notice_value_returns_sentinel
    ⟨some "k", HttpOutcome.body (Json.obj [("Note", Json.str "rate limited")]),
     "/repo", true⟩
    "BTC" "USD" [("Note", Json.str "rate limited")] rfl (Or.inl rfl)

theorem empty_series_is_success_witness :
    ∃ standard_data,
      (get_crypto_daily_price
          ⟨some "k",
           HttpOutcome.body (Json.obj
             [("Time Series (Digital Currency Daily)", Json.obj []),
              ("Meta Data", Json.obj [("7. Time Zone", Json.str "UTC")])]),
           "/repo", true⟩ "BTC" "USD").ret = some standard_data ∧
      (get_crypto_daily_price
          ⟨some "k",
           HttpOutcome.body (Json.obj
             [("Time Series (Digital Currency Daily)", Json.obj []),
              ("Meta Data", Json.obj [("7. Time Zone", Json.str "UTC")])]),
           "/repo", true⟩ "BTC" "USD").written =
        [(coinFilename "/repo" "BTC", standard_data)] ∧
      ∃ ol, standard_data = Json.obj ol ∧
        ol.lookup "Time Series (Daily)" = some (Json.obj []) :=
  empty_series_is_success
    ⟨some "k",
     HttpOutcome.body (Json.obj
       [("Time Series (Digital Currency Daily)", Json.obj []),
        ("Meta Data", Json.obj [("7. Time Zone", Json.str "UTC")])]),
     "/repo", true⟩
    "BTC" "USD"
    [("Time Series (Digital Currency Daily)", Json.obj []),
     ("Meta Data", Json.obj [("7. Time Zone", Json.str "UTC")])]
    [("7. Time Zone", Json.str "UTC")]
    rfl rfl rfl rfl rfl rfl rfl

theorem batch_counts_and_sleeps_witness :
    (get_all_crypto_prices
        (fun s => if s = "ETH" then ⟨none, HttpOutcome.netErr, "/repo", true⟩
          else ⟨some "k",
            HttpOutcome.body (Json.obj
              [("Time Series (Digital Currency Daily)", Json.obj [])]),
            "/repo", true⟩)
        (some ["BTC", "ETH", "XRP"]) 12).successful =
      (["BTC", "ETH", "XRP"].countP (fun s =>
        ((get_crypto_daily_price
            (if s = "ETH" then ⟨none, HttpOutcome.netErr, "/repo", true⟩
             else ⟨some "k",
               HttpOutcome.body (Json.obj
                 [("Time Series (Digital Currency Daily)", Json.obj [])]),
               "/repo", true⟩) s "USD").ret).isSome)) ∧
    (get_all_crypto_prices
        (fun s => if s = "ETH" then ⟨none, HttpOutcome.netErr, "/repo", true⟩
          else ⟨some "k",
            HttpOutcome.body (Json.obj
              [("Time Series (Digital Currency Daily)", Json.obj [])]),
            "/repo", true⟩)
        (some ["BTC", "ETH", "XRP"]) 12).failed =
      (["BTC", "ETH", "XRP"].length -
        ["BTC", "ETH", "XRP"].countP (fun s =>
          ((get_crypto_daily_price
              (if s = "ETH" then ⟨none, HttpOutcome.netErr, "/repo", true⟩
               else ⟨some "k",
                 HttpOutcome.body (Json.obj
                   [("Time Series (Digital Currency Daily)", Json.obj [])]),
                 "/repo", true⟩) s "USD").ret).isSome)) ∧
    (get_all_crypto_prices
        (fun s => if s = "ETH" then ⟨none, HttpOutcome.netErr, "/repo", true⟩
          else ⟨some "k",
            HttpOutcome.body (Json.obj
              [("Time Series (Digital Currency Daily)", Json.obj [])]),
            "/repo", true⟩)
        (some ["BTC", "ETH", "XRP"]) 12).successful +
      (get_all_crypto_prices
          (fun s => if s = "ETH" then ⟨none, HttpOutcome.netErr, "/repo", true⟩
            else ⟨some "k",
              HttpOutcome.body (Json.obj
                [("Time Series (Digital Currency Daily)", Json.obj [])]),
              "/repo", true⟩)
          (some ["BTC", "ETH", "XRP"]) 12).failed = ["BTC", "ETH", "XRP"].length ∧
    (get_all_crypto_prices
        (fun s => if s = "ETH" then ⟨none, HttpOutcome.netErr, "/repo", true⟩
          else ⟨some "k",
            HttpOutcome.body (Json.obj
              [("Time Series (Digital Currency Daily)", Json.obj [])]),
            "/repo", true⟩)
        (some ["BTC", "ETH", "XRP"]) 12).sleptAfter =
      List.range' 1 (["BTC", "ETH", "XRP"].length - 1) :=
  batch_counts_and_sleeps
    (fun s => if s = "ETH" then ⟨none, HttpOutcome.netErr, "/repo", true⟩
      else ⟨some "k",
        HttpOutcome.body (Json.obj
          [("Time Series (Digital Currency Daily)", Json.obj [])]),
        "/repo", true⟩)
    ["BTC", "ETH", "XRP"] 12 (by simp)

end AITrader
